import Mathlib

/-!
Shallow embedding of the webhook transport/response-normalization layer of
the n8n-webhook-chat client (source: the `sendToWebhook` module, together
with its helpers `getExtensionFromMimeType`, `blobToBase64`, and the
`AuthConfig` union from the types module).

JavaScript values returned by `JSON.parse` are modelled by the inductive
`Json`; the platform services the code calls (`JSON.parse`, the
`Content-Disposition` filename regular expression, `decodeURIComponent`,
and the wall clock read by `new Date().toISOString()`) are passed in as an
explicit environment `JsEnv`, mirroring the fact that they are
browser-provided primitives, not code of this repository.  Thrown
JavaScript exceptions are modelled by `Except JsError`; `JsError`
distinguishes `TypeError` (which `fetch` and body reads produce on network
failure and which the final `catch` rewrites) from ordinary `Error`.

Since the webhook's JSON payloads are only ever passed through by this
layer (the source casts them with `as BotResponse[]`), the normalized
output sequence is modelled as `List Json`, each element a plain
JavaScript object; the items the code itself constructs are built by
`mkTextItem` and in `handleBlobPath`.
-/

/-- JavaScript values producible by JSON.parse. -/
inductive Json where
  | null
  | bool (b : Bool)
  | num (n : Int)
  | str (s : String)
  | arr (elems : List Json)
  | obj (fields : List (String × Json))

/-- Property read `j.name` on a parsed JSON value: a field of an object,
`undefined` (here `none`) otherwise.  (Reading a property of `null` throws
a TypeError in JavaScript; in the one place the source performs such reads
they sit inside a try/catch whose handler coincides with the result of the
`none` path, so the model folds the two together.) -/
def getField (j : Json) (name : String) : Option Json :=
  match j with
  | .obj fields => fields.lookup name
  | _ => Option.none

/-- Array.isArray. -/
def isArray : Json → Bool
  | .arr _ => true
  | _ => false

/-- Truthiness test combined with Array.isArray, as in
`responseData.responses && Array.isArray(responseData.responses)`:
every JavaScript array (even the empty one) is truthy, so the compound
condition holds exactly when the field is present and is an array. -/
def hasResponsesArray (j : Json) : Bool :=
  match getField j "responses" with
  | some (Json.arr _) => true
  | _ => false

/-- Condition `responseData.text && typeof responseData.text === 'string'`:
the field must be present, a string, and truthy (the empty string is falsy). -/
def hasTruthyTextString (j : Json) : Bool :=
  match getField j "text" with
  | some (Json.str s) => decide (s ≠ "")
  | _ => false

/-- JavaScript exceptions, split by the one `instanceof TypeError` test the
source performs in its final catch block. -/
inductive JsError where
  | typeError (message : String)
  | error (message : String)
deriving DecidableEq

/-- The standard base64 alphabet used by `btoa` / `FileReader.readAsDataURL`. -/
def base64Alphabet : List Char :=
  "ABCDEFGHIJKLMNOPQRSTUVWXYZabcdefghijklmnopqrstuvwxyz0123456789+/".toList

/-- Digit of the base64 alphabet. -/
def base64Char (n : Nat) : Char := base64Alphabet.getD n 'A'

/-- Base64 encoding of a byte sequence (with `=` padding), the encoding
produced by `blobToBase64` after stripping the data-URI preamble. -/
def base64Encode : List Nat → String
  | [] => ""
  | [b1] =>
    let n1 := b1 % 256
    String.mk [base64Char (n1 / 4), base64Char (n1 % 4 * 16), '=', '=']
  | [b1, b2] =>
    let n1 := b1 % 256
    let n2 := b2 % 256
    String.mk [base64Char (n1 / 4), base64Char (n1 % 4 * 16 + n2 / 16),
      base64Char (n2 % 16 * 4), '=']
  | b1 :: b2 :: b3 :: rest =>
    let n1 := b1 % 256
    let n2 := b2 % 256
    let n3 := b3 % 256
    String.mk [base64Char (n1 / 4), base64Char (n1 % 4 * 16 + n2 / 16),
      base64Char (n2 % 16 * 4 + n3 / 64), base64Char (n3 % 64)] ++ base64Encode rest

/-- btoa: base64 of a string's code points (callers only pass code points below 256). -/
def btoa (s : String) : String := base64Encode (s.toList.map Char.toNat)

/-- Prefix test on character lists (an empty needle always matches). -/
def charsStartWith : List Char → List Char → Bool
  | _, [] => true
  | [], _ :: _ => false
  | c :: cs, d :: ds => c == d && charsStartWith cs ds

/-- String.prototype.startsWith. -/
def jsStartsWith (s p : String) : Bool := charsStartWith s.toList p.toList

/-- Substring search on character lists. -/
def charsContain : List Char → List Char → Bool
  | [], sub => sub.isEmpty
  | c :: cs, sub => charsStartWith (c :: cs) sub || charsContain cs sub

/-- String.prototype.includes. -/
def jsIncludes (s sub : String) : Bool := charsContain s.toList sub.toList

/-- String.prototype.toLowerCase. -/
def jsToLower (s : String) : String := String.mk (s.toList.map Char.toLower)

/-- String.prototype.trim: strip leading and trailing whitespace. -/
def jsTrim (s : String) : String :=
  String.mk (((s.toList.dropWhile Char.isWhitespace).reverse.dropWhile
    Char.isWhitespace).reverse)

/-- Fuelled splitter behind String.prototype.split with a non-empty
separator: at each position either the separator matches and the
accumulated chunk is emitted, or one character is carried over.  The fuel
is always instantiated to more than the input length, so the first arm is
never reached. -/
def splitCharsFuel (sep : List Char) : Nat → List Char → List Char → List (List Char)
  | 0, s, acc => [acc.reverse ++ s]
  | fuel + 1, s, acc =>
    match s with
    | [] => [acc.reverse]
    | c :: cs =>
      if charsStartWith (c :: cs) sep then
        acc.reverse :: splitCharsFuel sep fuel ((c :: cs).drop sep.length) []
      else
        splitCharsFuel sep fuel cs (c :: acc)

/-- String.prototype.split (an empty separator splits into single characters). -/
def jsSplit (s sep : String) : List String :=
  match sep.toList with
  | [] => s.toList.map fun c => String.mk [c]
  | sl => (splitCharsFuel sl (s.toList.length + 1) s.toList []).map String.mk

/-- The AuthConfig tagged union from the types module; every payload field
is optional there, hence Option String. -/
inductive AuthConfig where
  | none
  | basic (username password : Option String)
  | header (headerName headerValue : Option String)
  | jwt (token : Option String)

/-- JavaScript truthiness of a `string | undefined` value: `undefined` and
the empty string are falsy. -/
def truthyOpt : Option String → Bool
  | Option.none => false
  | some s => decide (s ≠ "")

/-- The value of `x || ''` for `x : string | undefined`. -/
def jsOrEmpty (o : Option String) : String := o.getD ""

/-- The `switch (authConfig.type)` block of sendToWebhook that populates
the outbound headers object. -/
def buildAuthHeaders : AuthConfig → List (String × String)
  | .basic username password =>
    if truthyOpt username || truthyOpt password then
      [("Authorization",
        "Basic " ++ btoa (jsOrEmpty username ++ ":" ++ jsOrEmpty password))]
    else []
  | .header headerName headerValue =>
    if truthyOpt headerName && truthyOpt headerValue then
      [(jsOrEmpty headerName, jsOrEmpty headerValue)]
    else []
  | .jwt token =>
    if truthyOpt token then [("Authorization", "Bearer " ++ jsOrEmpty token)]
    else []
  | .none => []

/-- A multipart form-data entry: a plain string field or an attached file
(files are opaque here; only their identity matters to this layer). -/
inductive FormValue where
  | field (s : String)
  | file (name : String)
deriving DecidableEq

/-- The `files.forEach((file, index) => formData.append('file' + index, file))`
loop, carrying the running index. -/
def appendFileFields : Nat → List String → List (String × FormValue)
  | _, [] => []
  | index, f :: fs => ("file" ++ toString index, FormValue.file f) :: appendFileFields (index + 1) fs

/-- The FormData assembled by sendToWebhook: `text`, then `chatId`, then one
entry per attachment. -/
def buildFormData (text chatId : String) (files : List String) : List (String × FormValue) :=
  [("text", FormValue.field text), ("chatId", FormValue.field chatId)] ++ appendFileFields 0 files

/-- The inner `getMessageType` of the binary branch: kind by MIME-type prefix. -/
def getMessageType (mimeType : String) : String :=
  if jsStartsWith mimeType "image/" then "image"
  else if jsStartsWith mimeType "video/" then "video"
  else if jsStartsWith mimeType "audio/" then "audio"
  else "file"

/-- The static MIME-type to extension table of getExtensionFromMimeType. -/
def mimeMap : List (String × String) :=
  [("application/pdf", "pdf"),
   ("application/zip", "zip"),
   ("application/msword", "doc"),
   ("application/vnd.openxmlformats-officedocument.wordprocessingml.document", "docx"),
   ("application/vnd.ms-excel", "xls"),
   ("application/vnd.openxmlformats-officedocument.spreadsheetml.sheet", "xlsx"),
   ("application/vnd.ms-powerpoint", "ppt"),
   ("application/vnd.openxmlformats-officedocument.presentationml.presentation", "pptx"),
   ("text/plain", "txt"),
   ("text/csv", "csv"),
   ("text/html", "html"),
   ("image/jpeg", "jpg"),
   ("image/png", "png"),
   ("image/gif", "gif"),
   ("image/svg+xml", "svg"),
   ("audio/mpeg", "mp3"),
   ("audio/wav", "wav"),
   ("audio/webm", "webm"),
   ("video/mp4", "mp4"),
   ("video/webm", "webm")]

/-- getExtensionFromMimeType: table lookup on the lower-cased type without
parameters, else the subtype token before any plus sign, else "bin". -/
def getExtensionFromMimeType (mimeType : String) : String :=
  if mimeType = "" then "bin"
  else
    let normalizedMimeType := (jsSplit (jsToLower mimeType) ";").headD ""
    match mimeMap.lookup normalizedMimeType with
    | some ext => ext
    | Option.none =>
      match (jsSplit normalizedMimeType "/").get? 1 with
      | some subType =>
        if subType ≠ "" then ((jsSplit subType "+").headD "") else "bin"
      | Option.none => "bin"

/-- The replace of a first occurrence of a character, as
String.prototype.replace with a string pattern does. -/
def jsReplaceFirstChar (c r : Char) : List Char → List Char
  | [] => []
  | x :: xs => if x = c then r :: xs else x :: jsReplaceFirstChar c r xs

/-- The timestamp formatting of the binary branch:
toISOString().slice(0, 19).replace('T', '_').replace(/:/g, '-'). -/
def formatDate (iso : String) : String :=
  let sliced := iso.toList.take 19
  let t1 := jsReplaceFirstChar 'T' '_' sliced
  String.mk (t1.map fun c => if c = ':' then '-' else c)

/-- The replace(/['"]/g, '') that strips quote characters (code points 39
and 34) from a regex capture. -/
def stripQuotes (s : String) : String :=
  String.mk (s.toList.filter fun c => c.toNat ≠ 39 && c.toNat ≠ 34)

/-- Browser-provided primitives the source calls, passed explicitly:
JSON.parse (none when it throws), the filenameRegex exec on a
Content-Disposition value (the first capture group when the regex
matches), decodeURIComponent, and the current toISOString() reading. -/
structure JsEnv where
  parse : String → Option Json
  regexFilenameMatch : String → Option String
  decodeURIComponent : String → String
  nowIso : String

/-- The observable parts of a fetch Response consumed by sendToWebhook.
`textResult` is the outcome of awaiting response.text(); reads may fail,
which surfaces as a thrown JsError. `blobType` is blob.type for the body
blob; `blobBytes` its bytes. -/
structure HttpResponse where
  ok : Bool
  status : Nat
  statusText : String
  contentType : Option String
  contentDisposition : Option String
  blobType : String
  blobBytes : List Nat
  textResult : Except JsError String

/-- Filename extraction from the Content-Disposition header: only when the
header is present, truthy and mentions `attachment` is the regex run; a
truthy first capture group is quote-stripped and percent-decoded. -/
def extractFileName (env : JsEnv) (disposition : Option String) : Option String :=
  match disposition with
  | Option.none => Option.none
  | some d =>
    if d ≠ "" && jsIncludes d "attachment" then
      match env.regexFilenameMatch d with
      | some m1 =>
        if m1 ≠ "" then some (env.decodeURIComponent (stripQuotes m1))
        else Option.none
      | Option.none => Option.none
    else Option.none

/-- The single-element item `\x7b type: 'text', content: s \x7d`. -/
def mkTextItem (s : String) : Json :=
  Json.obj [("type", Json.str "text"), ("content", Json.str s)]

/-- The content-type test deciding between the binary-file branch and the
text/JSON branch: the latter is taken exactly when the declared type starts
with application/json or with text/. -/
def isTextJsonContentType (contentType : String) : Bool :=
  jsStartsWith contentType "application/json" || jsStartsWith contentType "text/"

/-- The binary-file branch of sendToWebhook (content-type neither JSON nor
text): an empty blob yields no items, otherwise one item is built with kind
from the MIME prefix, base64 content, a filename from Content-Disposition
or a synthesized `file-<timestamp>.<ext>`, and the blob's MIME type
(falling back to the header's). -/
def handleBlobPath (env : JsEnv) (r : HttpResponse) (contentType : String) : List Json :=
  if r.blobBytes.length = 0 then []
  else
    let base64Content := base64Encode r.blobBytes
    let fileMimeType := if r.blobType ≠ "" then r.blobType else contentType
    let fileName :=
      match extractFileName env r.contentDisposition with
      | some f => f
      | Option.none =>
        "file-" ++ formatDate env.nowIso ++ "." ++ getExtensionFromMimeType fileMimeType
    [Json.obj [("type", Json.str (getMessageType fileMimeType)),
               ("content", Json.str base64Content),
               ("fileName", Json.str fileName),
               ("mimeType", Json.str fileMimeType)]]

/-- The message of the `Invalid JSON structure` error thrown when parsed
JSON matches none of the recognized shapes. -/
def invalidStructureMessage : String :=
  "Invalid JSON structure from webhook. Expected \x7b responses: [...] \x7d, an array of responses, or \x7b text: \x27...\x27 \x7d."

/-- The body of the try block classifying a successfully parsed JSON value:
a `responses` array is returned verbatim, else a bare array verbatim, else
a truthy string `text` field becomes one text item, else the structure
error is thrown. -/
def classifyParsed (responseData : Json) : Except JsError (List Json) :=
  match getField responseData "responses" with
  | some (Json.arr rs) => Except.ok rs
  | _ =>
    match responseData with
    | Json.arr rs => Except.ok rs
    | _ =>
      match getField responseData "text" with
      | some (Json.str s) =>
        if s ≠ "" then Except.ok [mkTextItem s]
        else Except.error (JsError.error invalidStructureMessage)
      | _ => Except.error (JsError.error invalidStructureMessage)

/-- The try/catch around JSON.parse and classification: any throw inside
the try — a parse failure, a property read on null, or the structure error
itself — is caught, and the whole raw text degrades to one text item. -/
def handleTextBody (env : JsEnv) (responseText : String) : List Json :=
  match env.parse responseText with
  | Option.none => [mkTextItem responseText]
  | some responseData =>
    match classifyParsed responseData with
    | Except.ok items => items
    | Except.error _ => [mkTextItem responseText]

/-- Response handling of sendToWebhook after fetch resolves: the non-2xx
throw, then the content-type branch; body reads that fail propagate their
exception. -/
def handleResponse (env : JsEnv) (r : HttpResponse) : Except JsError (List Json) :=
  if !r.ok then
    match r.textResult with
    | Except.error e => Except.error e
    | Except.ok errorText =>
      Except.error (JsError.error
        ("Request failed: " ++ toString r.status ++ " " ++ r.statusText ++
          ". Server response: " ++ errorText))
  else
    let contentType := jsOrEmpty r.contentType
    if !isTextJsonContentType contentType then
      Except.ok (handleBlobPath env r contentType)
    else
      match r.textResult with
      | Except.error e => Except.error e
      | Except.ok responseText =>
        if jsTrim responseText = "" then Except.ok []
        else Except.ok (handleTextBody env responseText)

/-- The outer catch of sendToWebhook: a TypeError is replaced by the
network/CORS error, anything else is rethrown unchanged. -/
def wrapCatch : JsError → JsError
  | JsError.typeError _ =>
    JsError.error "Network error or CORS issue. Check the webhook URL and server configuration."
  | JsError.error m => JsError.error m

/-- sendToWebhook: builds the form data and auth headers, performs the
POST through the supplied transport, and normalizes the response; every
exception escaping the try block passes through the final catch. -/
def sendToWebhook (env : JsEnv) (url text : String) (files : List String)
    (authConfig : AuthConfig) (chatId : String)
    (doFetch : String → List (String × FormValue) → List (String × String) →
      Except JsError HttpResponse) :
    Except JsError (List Json) :=
  let formData := buildFormData text chatId files
  let headers := buildAuthHeaders authConfig
  match doFetch url formData headers with
  | Except.error e => Except.error (wrapCatch e)
  | Except.ok response =>
    match handleResponse env response with
    | Except.error e => Except.error (wrapCatch e)
    | Except.ok items => Except.ok items

/-! ### Concrete environments and responses used to witness the claims -/

/-- An environment whose JSON.parse always throws and whose clock reads an
empty ISO string; sufficient wherever parsing is not reached. -/
def emptyEnv : JsEnv :=
  ⟨fun _ => Option.none, fun _ => Option.none, id, ""⟩

/-- A 500 response carrying the body `boom`. -/
def respBoom500 : HttpResponse :=
  ⟨false, 500, "Internal Server Error", some "text/plain", Option.none, "", [],
    Except.ok "boom"⟩

/-- A 500 response whose body read itself throws. -/
def respReadFail500 : HttpResponse :=
  ⟨false, 500, "Internal Server Error", some "text/plain", Option.none, "", [],
    Except.error (JsError.error "body stream already read")⟩

/-- An environment parsing the body `\x7b"foo":1\x7d` to the object with the
single field foo. -/
def envFoo : JsEnv :=
  ⟨fun s => if s = "\x7b\"foo\":1\x7d" then some (Json.obj [("foo", Json.num 1)])
    else Option.none,
   fun _ => Option.none, id, ""⟩

/-- A 200 application/json response with body `\x7b"foo":1\x7d`. -/
def respFoo : HttpResponse :=
  ⟨true, 200, "OK", some "application/json", Option.none, "", [],
    Except.ok "\x7b\"foo\":1\x7d"⟩

/-- An environment parsing the body `\x7b"text":""\x7d` to an object whose
text field is the empty string. -/
def envEmptyText : JsEnv :=
  ⟨fun s => if s = "\x7b\"text\":\"\"\x7d" then some (Json.obj [("text", Json.str "")])
    else Option.none,
   fun _ => Option.none, id, ""⟩

/-- A 200 application/json response with body `\x7b"text":""\x7d`. -/
def respEmptyText : HttpResponse :=
  ⟨true, 200, "OK", some "application/json", Option.none, "", [],
    Except.ok "\x7b\"text\":\"\"\x7d"⟩

/-- An environment parsing the body `\x7b"text":"hello **world**"\x7d`. -/
def envHello : JsEnv :=
  ⟨fun s => if s = "\x7b\"text\":\"hello **world**\"\x7d" then
      some (Json.obj [("text", Json.str "hello **world**")])
    else Option.none,
   fun _ => Option.none, id, ""⟩

/-- A 200 application/json response with body `\x7b"text":"hello **world**"\x7d`. -/
def respHello : HttpResponse :=
  ⟨true, 200, "OK", some "application/json", Option.none, "", [],
    Except.ok "\x7b\"text\":\"hello **world**\"\x7d"⟩

/-- A 200 text/plain response whose body is not JSON. -/
def respPlain : HttpResponse :=
  ⟨true, 200, "OK", some "text/plain", Option.none, "", [],
    Except.ok "just a string, not json"⟩

/-- A 200 application/pdf response with a zero-length body. -/
def respPdfEmpty : HttpResponse :=
  ⟨true, 200, "OK", some "application/pdf", Option.none, "application/pdf", [],
    Except.ok ""⟩

/-- An environment whose clock reads 2024-01-01T00:00:00.000Z. -/
def envClock : JsEnv :=
  ⟨fun _ => Option.none, fun _ => Option.none, id, "2024-01-01T00:00:00.000Z"⟩

/-- A 200 application/pdf response with the ten bytes of `%PDF-1.4\n%` and
no Content-Disposition header. -/
def respPdf : HttpResponse :=
  ⟨true, 200, "OK", some "application/pdf", Option.none, "application/pdf",
    [37, 80, 68, 70, 45, 49, 46, 52, 10, 37], Except.ok ""⟩

/-- The two ready-made items of the responses-array example. -/
def itemA : Json := Json.obj [("type", Json.str "text"), ("content", Json.str "a")]

/-- Second ready-made item of the responses-array example. -/
def itemB : Json :=
  Json.obj [("type", Json.str "image"), ("content", Json.str "QUJD"),
    ("mimeType", Json.str "image/png")]

/-- The parsed object carrying a responses array (and also a truthy text
field, which must lose to the responses array). -/
def objResponses : Json :=
  Json.obj [("responses", Json.arr [itemA, itemB]), ("text", Json.str "ignored")]

/-- An environment parsing the responses-array body to objResponses. -/
def envResponses : JsEnv :=
  ⟨fun s => if s = "responses-body" then some objResponses else Option.none,
   fun _ => Option.none, id, ""⟩

/-- A 200 application/json response whose body parses to objResponses. -/
def respResponses : HttpResponse :=
  ⟨true, 200, "OK", some "application/json", Option.none, "", [],
    Except.ok "responses-body"⟩

/-! ### Helper lemmas -/

/-- truthyOpt restated through the `x || ''` substitution. -/
theorem truthyOpt_eq (o : Option String) : truthyOpt o = decide (o.getD "" ≠ "") := by
  cases o <;> simp [truthyOpt]

/-- With a transport that resolves to a fixed response, sendToWebhook is
the response handler followed by the final catch. -/
theorem send_ok_eq_handleResponse (env : JsEnv) (url text : String)
    (files : List String) (authConfig : AuthConfig) (chatId : String)
    (r : HttpResponse) :
    sendToWebhook env url text files authConfig chatId (fun _ _ _ => Except.ok r) =
      match handleResponse env r with
      | Except.error e => Except.error (wrapCatch e)
      | Except.ok items => Except.ok items := rfl

/-- On a 2xx response declaring a text/JSON content type whose body reads
as non-blank text, handling is the text-body classification. -/
theorem handleResponse_textPath (env : JsEnv) (r : HttpResponse) (body : String)
    (hok : r.ok = true)
    (hct : isTextJsonContentType (jsOrEmpty r.contentType) = true)
    (hread : r.textResult = Except.ok body)
    (hne : jsTrim body ≠ "") :
    handleResponse env r = Except.ok (handleTextBody env body) := by
  simp [handleResponse, hok, hct, hread, hne]

/-- On a 2xx response declaring neither a JSON nor a text content type,
handling is the binary-blob branch. -/
theorem handleResponse_blobPath (env : JsEnv) (r : HttpResponse)
    (hok : r.ok = true)
    (hct : isTextJsonContentType (jsOrEmpty r.contentType) = false) :
    handleResponse env r = Except.ok (handleBlobPath env r (jsOrEmpty r.contentType)) := by
  simp [handleResponse, hok, hct]

/-! ### Claim theorems -/

/-- C4: the header variant emits the single header headerName: headerValue
exactly when both fields are non-empty (a half-specified header auth emits
nothing); the basic variant emits Authorization: Basic base64(username:password)
exactly when at least one field is non-empty, substituting the empty string
for any unset field; the none variant emits no headers. -/
theorem auth_header_emission :
    (∀ n v, buildAuthHeaders (AuthConfig.header (some n) (some v)) =
      if n ≠ "" ∧ v ≠ "" then [(n, v)] else []) ∧
    (∀ n, buildAuthHeaders (AuthConfig.header n Option.none) = []) ∧
    (∀ v, buildAuthHeaders (AuthConfig.header Option.none v) = []) ∧
    (∀ u p, buildAuthHeaders (AuthConfig.basic u p) =
      if u.getD "" = "" ∧ p.getD "" = "" then []
      else [("Authorization", "Basic " ++ btoa (u.getD "" ++ ":" ++ p.getD ""))]) ∧
    buildAuthHeaders AuthConfig.none = [] := by
  refine ⟨fun n v => ?_, fun n => ?_, fun v => ?_, fun u p => ?_, rfl⟩
  · by_cases hn : n = "" <;> by_cases hv : v = "" <;>
      simp [buildAuthHeaders, truthyOpt, jsOrEmpty, hn, hv]
  · simp [buildAuthHeaders, truthyOpt]
  · simp [buildAuthHeaders, truthyOpt]
  · by_cases h1 : u.getD "" = "" <;> by_cases h2 : p.getD "" = "" <;>
      simp [buildAuthHeaders, truthyOpt_eq, jsOrEmpty, h1, h2]

/-- The file-field loop enumerates the attachments from its starting index. -/
theorem appendFileFields_eq (files : List String) :
    ∀ n, appendFileFields n files =
      (List.enumFrom n files).map fun p => ("file" ++ toString p.1, FormValue.file p.2) := by
  induction files with
  | nil => intro n; rfl
  | cons f fs ih => intro n; simp [appendFileFields, List.enumFrom, ih]

/-- C9: the multipart body holds the field text, the field chatId, and then
exactly one field per attachment, named file0, file1, ... in the order the
attachments were supplied. -/
theorem formdata_fields (text chatId : String) (files : List String) :
    buildFormData text chatId files =
      ("text", FormValue.field text) :: ("chatId", FormValue.field chatId) ::
        (files.enum.map fun p => ("file" ++ toString p.1, FormValue.file p.2)) := by
  simp [buildFormData, List.enum, appendFileFields_eq]

/-- C10: on a 2xx response the branch is decided purely by string prefix on
the declared content-type — the text/JSON path runs exactly when it starts
with application/json or text/, everything else (including an absent header
read as the empty string, and application/ld+json) takes the binary path,
while application/json; charset=utf-8 takes the text/JSON path. -/
theorem content_type_branching :
    (∀ env status stext ct cd bt bb tr,
      handleResponse env ⟨true, status, stext, ct, cd, bt, bb, tr⟩ =
        if isTextJsonContentType (ct.getD "") then
          match tr with
          | Except.error e => Except.error e
          | Except.ok t =>
            if jsTrim t = "" then Except.ok []
            else Except.ok (handleTextBody env t)
        else
          Except.ok (handleBlobPath env ⟨true, status, stext, ct, cd, bt, bb, tr⟩
            (ct.getD ""))) ∧
    isTextJsonContentType "" = false ∧
    isTextJsonContentType "application/ld+json" = false ∧
    isTextJsonContentType "application/octet-stream" = false ∧
    isTextJsonContentType "application/json; charset=utf-8" = true ∧
    isTextJsonContentType "text/plain" = true := by
  refine ⟨fun env status stext ct cd bt bb tr => ?_, by decide, by decide, by decide,
    by decide, by decide⟩
  cases h : isTextJsonContentType (ct.getD "") <;>
    simp [handleResponse, jsOrEmpty, h]

/-- Composition of the transport with the text/JSON branch. -/
theorem send_textPath (env : JsEnv) (url text : String) (files : List String)
    (authConfig : AuthConfig) (chatId : String) (r : HttpResponse) (body : String)
    (hok : r.ok = true)
    (hct : isTextJsonContentType (jsOrEmpty r.contentType) = true)
    (hread : r.textResult = Except.ok body)
    (hne : jsTrim body ≠ "") :
    sendToWebhook env url text files authConfig chatId (fun _ _ _ => Except.ok r) =
      Except.ok (handleTextBody env body) := by
  rw [send_ok_eq_handleResponse, handleResponse_textPath env r body hok hct hread hne]

/-- Classification of a parsed value with a responses array returns it verbatim. -/
theorem classifyParsed_responses (j : Json) (xs : List Json)
    (hresp : getField j "responses" = some (Json.arr xs)) :
    classifyParsed j = Except.ok xs := by
  cases j with
  | obj fields => simp [classifyParsed, hresp]
  | null => simp [getField] at hresp
  | bool b => simp [getField] at hresp
  | num n => simp [getField] at hresp
  | str s => simp [getField] at hresp
  | arr es => simp [getField] at hresp

/-- Classification of a parsed bare array returns it verbatim. -/
theorem classifyParsed_arr (xs : List Json) :
    classifyParsed (Json.arr xs) = Except.ok xs := by
  simp [classifyParsed, getField]

/-- Classification of a parsed value with a non-empty string text field
(and no responses array) yields the single text item. -/
theorem classifyParsed_text (j : Json) (s : String)
    (hnoresp : hasResponsesArray j = false)
    (htext : getField j "text" = some (Json.str s)) (hs : s ≠ "") :
    classifyParsed j = Except.ok [mkTextItem s] := by
  cases j with
  | obj fields =>
    rcases hresp : getField (Json.obj fields) "responses" with _ | val
    · simp [classifyParsed, hresp, htext, hs]
    · cases val with
      | arr rs => simp [hasResponsesArray, hresp] at hnoresp
      | null => simp [classifyParsed, hresp, htext, hs]
      | bool b => simp [classifyParsed, hresp, htext, hs]
      | num n => simp [classifyParsed, hresp, htext, hs]
      | str s2 => simp [classifyParsed, hresp, htext, hs]
      | obj fs2 => simp [classifyParsed, hresp, htext, hs]
  | null => simp [getField] at htext
  | bool b => simp [getField] at htext
  | num n => simp [getField] at htext
  | str s2 => simp [getField] at htext
  | arr es => simp [getField] at htext

/-- C2 (amended): a non-2xx response whose body read succeeds fails with the
Request-failed error whose message is built from the numeric status, the
status text and the raw body, each of which therefore occurs inside it.
(When the body read itself throws, the source has no handler around
response.text(), so the read error propagates instead — see the
counterexample theorem.) -/
theorem http_error_message (env : JsEnv) (url text : String) (files : List String)
    (authConfig : AuthConfig) (chatId : String) (r : HttpResponse) (body : String)
    (hok : r.ok = false) (hread : r.textResult = Except.ok body) :
    sendToWebhook env url text files authConfig chatId (fun _ _ _ => Except.ok r) =
      Except.error (JsError.error ("Request failed: " ++ toString r.status ++ " " ++
        r.statusText ++ ". Server response: " ++ body)) ∧
    (toString r.status).data <:+: ("Request failed: " ++ toString r.status ++ " " ++
        r.statusText ++ ". Server response: " ++ body).data ∧
    r.statusText.data <:+: ("Request failed: " ++ toString r.status ++ " " ++
        r.statusText ++ ". Server response: " ++ body).data ∧
    body.data <:+: ("Request failed: " ++ toString r.status ++ " " ++
        r.statusText ++ ". Server response: " ++ body).data := by
  refine ⟨?_, ?_, ?_, ?_⟩
  · simp [sendToWebhook, handleResponse, hok, hread, wrapCatch]
  · exact ⟨"Request failed: ".data,
      (" " ++ r.statusText ++ ". Server response: " ++ body).data,
      by simp [String.data_append]⟩
  · exact ⟨("Request failed: " ++ toString r.status ++ " ").data,
      (". Server response: " ++ body).data,
      by simp [String.data_append]⟩
  · exact ⟨("Request failed: " ++ toString r.status ++ " " ++ r.statusText ++
      ". Server response: ").data, [], by simp [String.data_append]⟩

/-- Witness for C2 at a 500 response with body boom. -/
theorem http_error_message_witness :
    (sendToWebhook emptyEnv "url" "" [] AuthConfig.none "chat"
        (fun _ _ _ => Except.ok respBoom500) =
      Except.error (JsError.error ("Request failed: " ++ toString respBoom500.status ++
        " " ++ respBoom500.statusText ++ ". Server response: " ++ "boom"))) ∧
    (toString respBoom500.status).data <:+: ("Request failed: " ++
        toString respBoom500.status ++ " " ++ respBoom500.statusText ++
        ". Server response: " ++ "boom").data ∧
    respBoom500.statusText.data <:+: ("Request failed: " ++
        toString respBoom500.status ++ " " ++ respBoom500.statusText ++
        ". Server response: " ++ "boom").data ∧
    "boom".data <:+: ("Request failed: " ++ toString respBoom500.status ++ " " ++
        respBoom500.statusText ++ ". Server response: " ++ "boom").data :=
  http_error_message emptyEnv "url" "" [] AuthConfig.none "chat" respBoom500 "boom" rfl rfl

/-- Counterexample to C2 as stated: when the non-2xx body read throws, the
read failure is not swallowed — it escapes and replaces the HTTP error, so
the surfaced message mentions neither the status code nor the status text. -/
theorem http_error_read_failure_counterexample :
    sendToWebhook emptyEnv "url" "" [] AuthConfig.none "chat"
        (fun _ _ _ => Except.ok respReadFail500) =
      Except.error (JsError.error "body stream already read") ∧
    jsIncludes "body stream already read" "500" = false ∧
    jsIncludes "body stream already read" "Internal Server Error" = false :=
  ⟨rfl, by decide, by decide⟩

/-- C3 (amended): a 2xx text/JSON response parsing to a value with no
responses array that is not itself an array and has a non-empty
string-valued text field yields exactly the single text item carrying that
string.  (The source tests the field with JavaScript truthiness, so the
empty string is excluded — see the counterexample theorem.) -/
theorem text_field_single_item (env : JsEnv) (url text : String)
    (files : List String) (authConfig : AuthConfig) (chatId : String)
    (r : HttpResponse) (body s : String) (j : Json)
    (hok : r.ok = true)
    (hct : isTextJsonContentType (jsOrEmpty r.contentType) = true)
    (hread : r.textResult = Except.ok body)
    (hne : jsTrim body ≠ "")
    (hparse : env.parse body = some j)
    (hnoresp : hasResponsesArray j = false)
    (_hnoarr : isArray j = false)
    (htext : getField j "text" = some (Json.str s))
    (hs : s ≠ "") :
    sendToWebhook env url text files authConfig chatId (fun _ _ _ => Except.ok r) =
      Except.ok [mkTextItem s] := by
  rw [send_textPath env url text files authConfig chatId r body hok hct hread hne]
  simp [handleTextBody, hparse, classifyParsed_text j s hnoresp htext hs]

/-- Witness for C3 at the round-trip body of the spec. -/
theorem text_field_single_item_witness :
    sendToWebhook envHello "url" "" [] AuthConfig.none "chat"
        (fun _ _ _ => Except.ok respHello) =
      Except.ok [mkTextItem "hello **world**"] :=
  text_field_single_item envHello "url" "" [] AuthConfig.none "chat" respHello
    "\x7b\"text\":\"hello **world**\"\x7d" "hello **world**"
    (Json.obj [("text", Json.str "hello **world**")])
    rfl rfl rfl (by decide) rfl rfl rfl rfl (by decide)

/-- Counterexample to C3 as stated: an empty-string text field is falsy, so
the body degrades to the raw-text fallback item, not to a text item with
empty content. -/
theorem text_field_empty_counterexample :
    sendToWebhook envEmptyText "url" "" [] AuthConfig.none "chat"
        (fun _ _ _ => Except.ok respEmptyText) =
      Except.ok [mkTextItem "\x7b\"text\":\"\"\x7d"] ∧
    (Except.ok (ε := JsError) [mkTextItem "\x7b\"text\":\"\"\x7d"] ≠
      Except.ok [mkTextItem ""]) :=
  ⟨rfl, by simp [mkTextItem]⟩

/-- C5: a 2xx text/JSON response with a non-blank body on which JSON.parse
throws does not fail — it yields the single text item carrying the raw
body unchanged. -/
theorem parse_failure_degrades_to_text (env : JsEnv) (url text : String)
    (files : List String) (authConfig : AuthConfig) (chatId : String)
    (r : HttpResponse) (body : String)
    (hok : r.ok = true)
    (hct : isTextJsonContentType (jsOrEmpty r.contentType) = true)
    (hread : r.textResult = Except.ok body)
    (hne : jsTrim body ≠ "")
    (hparse : env.parse body = Option.none) :
    sendToWebhook env url text files authConfig chatId (fun _ _ _ => Except.ok r) =
      Except.ok [mkTextItem body] := by
  rw [send_textPath env url text files authConfig chatId r body hok hct hread hne]
  simp [handleTextBody, hparse]

/-- Witness for C5 at a text/plain body that is not JSON. -/
theorem parse_failure_degrades_to_text_witness :
    sendToWebhook emptyEnv "url" "" [] AuthConfig.none "chat"
        (fun _ _ _ => Except.ok respPlain) =
      Except.ok [mkTextItem "just a string, not json"] :=
  parse_failure_degrades_to_text emptyEnv "url" "" [] AuthConfig.none "chat" respPlain
    "just a string, not json" rfl rfl rfl (by decide) rfl

/-- C6: a 2xx response with an empty body succeeds with the empty sequence:
a zero-length blob on the binary path, or an empty or whitespace-only text
body on the text/JSON path. -/
theorem empty_body_empty_sequence (env : JsEnv) (url text : String)
    (files : List String) (authConfig : AuthConfig) (chatId : String)
    (r : HttpResponse)
    (hok : r.ok = true)
    (h : (isTextJsonContentType (jsOrEmpty r.contentType) = false ∧ r.blobBytes = [])
       ∨ (isTextJsonContentType (jsOrEmpty r.contentType) = true ∧
          ∃ body, r.textResult = Except.ok body ∧ jsTrim body = "")) :
    sendToWebhook env url text files authConfig chatId (fun _ _ _ => Except.ok r) =
      Except.ok [] := by
  rcases h with ⟨hct, hbb⟩ | ⟨hct, body, hread, htr⟩
  · rw [send_ok_eq_handleResponse, handleResponse_blobPath env r hok hct]
    simp [handleBlobPath, hbb]
  · rw [send_ok_eq_handleResponse]
    simp [handleResponse, hok, hct, hread, htr]

/-- Witness for C6 at a zero-length application/pdf body. -/
theorem empty_body_empty_sequence_witness :
    sendToWebhook emptyEnv "url" "" [] AuthConfig.none "chat"
        (fun _ _ _ => Except.ok respPdfEmpty) =
      Except.ok [] :=
  empty_body_empty_sequence emptyEnv "url" "" [] AuthConfig.none "chat" respPdfEmpty
    rfl (Or.inl ⟨rfl, rfl⟩)

/-- C7: a 2xx response on the binary path with a non-empty body and no
Content-Disposition attachment filename yields exactly one item whose kind
is derived from the MIME type by prefix, whose content is the base64
encoding of the body bytes, and whose fileName is synthesized as
file-(timestamp).(extension from the static MIME table, else the subtype
token before a plus sign, else bin). -/
theorem binary_body_single_file_item (env : JsEnv) (url text : String)
    (files : List String) (authConfig : AuthConfig) (chatId : String)
    (r : HttpResponse)
    (hok : r.ok = true)
    (hct : isTextJsonContentType (jsOrEmpty r.contentType) = false)
    (hbb : r.blobBytes ≠ [])
    (hdisp : extractFileName env r.contentDisposition = Option.none) :
    sendToWebhook env url text files authConfig chatId (fun _ _ _ => Except.ok r) =
      Except.ok [Json.obj
        [("type", Json.str (getMessageType
            (if r.blobType ≠ "" then r.blobType else jsOrEmpty r.contentType))),
         ("content", Json.str (base64Encode r.blobBytes)),
         ("fileName", Json.str ("file-" ++ formatDate env.nowIso ++ "." ++
            getExtensionFromMimeType
              (if r.blobType ≠ "" then r.blobType else jsOrEmpty r.contentType))),
         ("mimeType", Json.str
            (if r.blobType ≠ "" then r.blobType else jsOrEmpty r.contentType))]] := by
  rw [send_ok_eq_handleResponse, handleResponse_blobPath env r hok hct]
  simp [handleBlobPath, hdisp, List.length_eq_zero, hbb]

/-- Witness for C7 at a ten-byte application/pdf body: the single item has
kind file, mimeType application/pdf, and a synthesized filename ending in
.pdf. -/
theorem binary_body_single_file_item_witness :
    sendToWebhook envClock "url" "" [] AuthConfig.none "chat"
        (fun _ _ _ => Except.ok respPdf) =
      Except.ok [Json.obj
        [("type", Json.str "file"),
         ("content", Json.str (base64Encode [37, 80, 68, 70, 45, 49, 46, 52, 10, 37])),
         ("fileName", Json.str "file-2024-01-01_00-00-00.pdf"),
         ("mimeType", Json.str "application/pdf")]] ∧
    getMessageType "application/pdf" = "file" ∧
    getExtensionFromMimeType "application/pdf" = "pdf" ∧
    charsStartWith "file-2024-01-01_00-00-00.pdf".toList.reverse ".pdf".toList.reverse =
      true :=
  ⟨binary_body_single_file_item envClock "url" "" [] AuthConfig.none "chat" respPdf
      rfl rfl (by decide) rfl,
   by decide, by decide, by decide⟩

/-- C8: on the text/JSON path with successfully parsed JSON, a responses
array is returned verbatim in order (taking priority over every other
shape, including a present text field); otherwise a bare array is returned
verbatim in order. -/
theorem responses_array_passthrough (env : JsEnv) (url text : String)
    (files : List String) (authConfig : AuthConfig) (chatId : String)
    (r : HttpResponse) (body : String) (j : Json)
    (hok : r.ok = true)
    (hct : isTextJsonContentType (jsOrEmpty r.contentType) = true)
    (hread : r.textResult = Except.ok body)
    (hne : jsTrim body ≠ "")
    (hparse : env.parse body = some j) :
    (∀ xs, getField j "responses" = some (Json.arr xs) →
      sendToWebhook env url text files authConfig chatId (fun _ _ _ => Except.ok r) =
        Except.ok xs) ∧
    (∀ xs, hasResponsesArray j = false → j = Json.arr xs →
      sendToWebhook env url text files authConfig chatId (fun _ _ _ => Except.ok r) =
        Except.ok xs) := by
  constructor
  · intro xs hresp
    rw [send_textPath env url text files authConfig chatId r body hok hct hread hne]
    simp [handleTextBody, hparse, classifyParsed_responses j xs hresp]
  · intro xs _ harr
    subst harr
    rw [send_textPath env url text files authConfig chatId r body hok hct hread hne]
    simp [handleTextBody, hparse, classifyParsed_arr]

/-- Witness for C8 at a responses array of two ready-made items next to a
truthy text field, which loses to the array. -/
theorem responses_array_passthrough_witness :
    sendToWebhook envResponses "url" "" [] AuthConfig.none "chat"
        (fun _ _ _ => Except.ok respResponses) =
      Except.ok [itemA, itemB] :=
  (responses_array_passthrough envResponses "url" "" [] AuthConfig.none "chat"
      respResponses "responses-body" objResponses rfl rfl rfl (by decide) rfl).1
    [itemA, itemB] rfl

/-- C1 (the code, not the claim): valid JSON matching none of the three
recognized shapes does not fail — although classifyParsed raises the
Invalid-JSON-structure error exactly as the claim expects, that throw sits
inside the try whose catch returns the raw-text fallback, so sendToWebhook
succeeds with a single text item carrying the raw body. -/
theorem malformed_structure_error_swallowed :
    sendToWebhook envFoo "url" "" [] AuthConfig.none "chat"
        (fun _ _ _ => Except.ok respFoo) =
      Except.ok [mkTextItem "\x7b\"foo\":1\x7d"] ∧
    classifyParsed (Json.obj [("foo", Json.num 1)]) =
      Except.error (JsError.error invalidStructureMessage) :=
  ⟨rfl, rfl⟩
